import Mathlib

/-!
Shallow embedding of the industrial-qr-otp lead-capture backend
(`src/server.js`, `src/db.js`).

The server keeps an in-memory session map `leads` keyed by normalized
phone, a SQLite `leads` table (append-only, autoincrement id), and calls
an external SMS-OTP provider (Twilio Verify).  External effects — the
database insert succeeding or failing, and the provider's send/check
outcomes — are passed to each handler as explicit oracle parameters, and
each handler additionally reports the list of external calls it issued.
-/

namespace QrOtp

/-- A verification-session entry of the in-memory `leads` object:
`leads[normalizedPhone] = { name, phone: normalizedPhone, verified }`. -/
structure Session where
  name : String
  phone : String
  verified : Bool
deriving DecidableEq, Repr

/-- The in-memory `leads` object, modelled as an association list from
normalized phone to session. -/
abbrev SessionMap := List (String × Session)

/-- JS property read `leads[k]`: first (only) binding of the key. -/
def mapLookup (m : SessionMap) (k : String) : Option Session :=
  match m with
  | [] => none
  | (k', v) :: rest => if k' = k then some v else mapLookup rest k

/-- JS property write `leads[k] = v`: replace the binding when the key is
present, otherwise add it. -/
def mapSet (m : SessionMap) (k : String) (v : Session) : SessionMap :=
  match m with
  | [] => [(k, v)]
  | (k', v') :: rest =>
      if k' = k then (k', v) :: rest else (k', v') :: mapSet rest k v

/-- One row of the SQLite `leads` table
(`id, name, phone, catalog_code, created_at`), from `src/db.js`. -/
structure LeadRow where
  id : Nat
  name : String
  phone : String
  catalog_code : Option String
  created_at : Nat
deriving DecidableEq, Repr

/-- The `leads` table: its rows plus the next AUTOINCREMENT id. -/
structure LeadsDb where
  rows : List LeadRow
  nextId : Nat
deriving DecidableEq, Repr

/-- `INSERT INTO leads (name, phone, catalog_code) VALUES (?, ?, ?)`:
appends one row with the store-assigned id and timestamp. -/
def dbInsert (db : LeadsDb) (name phone : String) (catalogCode : Option String)
    (now : Nat) : LeadsDb :=
  { rows := db.rows ++ [⟨db.nextId, name, phone, catalogCode, now⟩],
    nextId := db.nextId + 1 }

/-- Full mutable server state: the in-memory session map and the table. -/
structure ServerState where
  leads : SessionMap
  db : LeadsDb
deriving DecidableEq, Repr

/-- The JSON response a handler sends: HTTP status, `success`, `message`. -/
structure HttpResponse where
  status : Nat
  success : Bool
  message : Option String
deriving DecidableEq, Repr

/-- External calls a handler issues, in order. -/
inductive Effect where
  | dbInsert (name phone : String) (catalogCode : Option String)
  | sendCode (toNum : String)
  | checkCode (toNum code : String)
deriving DecidableEq, Repr

/-- JS truthiness test `!x` for a request-body string field: true when the
field is absent or the empty string. -/
def isFalsy : Option String → Bool
  | none => true
  | some s => s == ""

/-- Phone normalization in `POST /api/send-otp`, line 52:
`` `+${phone.replace(/\D/g, '')}` ``. -/
def sendOtpNormalize (phone : String) : String :=
  "+" ++ String.mk (phone.data.filter Char.isDigit)

/-- Phone normalization in `POST /api/verify-otp`, line 98:
`` `+${phone.replace(/\D/g, '')}` ``. -/
def verifyOtpNormalize (phone : String) : String :=
  "+" ++ String.mk (phone.data.filter Char.isDigit)

/-- Outcome of the Twilio `verificationChecks.create` call: either the
call throws, or it returns a verification whose `status` is a string. -/
inductive CheckOutcome where
  | providerError
  | status (s : String)
deriving DecidableEq, Repr

/-- `POST /api/send-otp` (`src/server.js` lines 45–90).  `insertOk` is the
oracle for whether `db.run` inserts the row or reports an error (the
error is only logged); `sendOk` for whether the Twilio
`verifications.create` call succeeds or throws. -/
def submitLead (st : ServerState) (name phone catalogCode : Option String)
    (insertOk sendOk : Bool) (now : Nat) :
    ServerState × HttpResponse × List Effect :=
  if isFalsy name || isFalsy phone then
    (st, ⟨400, false, some "Name and phone are required"⟩, [])
  else
    let n := name.getD ""
    let normalizedPhone := sendOtpNormalize (phone.getD "")
    let leads' := mapSet st.leads normalizedPhone ⟨n, normalizedPhone, false⟩
    let db' := if insertOk then dbInsert st.db n normalizedPhone catalogCode now
               else st.db
    let effs : List Effect :=
      [.dbInsert n normalizedPhone catalogCode, .sendCode normalizedPhone]
    if sendOk then
      (⟨leads', db'⟩, ⟨200, true, none⟩, effs)
    else
      (⟨leads', db'⟩, ⟨500, false, some "Failed to send OTP"⟩, effs)

/-- `POST /api/verify-otp` (`src/server.js` lines 93–124).  `check` is the
oracle for the Twilio `verificationChecks.create` outcome. -/
def verifyLead (st : ServerState) (phone otp : Option String)
    (check : CheckOutcome) : ServerState × HttpResponse × List Effect :=
  if isFalsy phone || isFalsy otp then
    (st, ⟨400, false, some "Phone and OTP are required"⟩, [])
  else
    let normalizedPhone := verifyOtpNormalize (phone.getD "")
    let effs : List Effect := [.checkCode normalizedPhone (otp.getD "")]
    match check with
    | .providerError =>
        (st, ⟨500, false, some "OTP verification failed"⟩, effs)
    | .status s =>
        if s = "approved" then
          let leads' :=
            match mapLookup st.leads normalizedPhone with
            | some sess =>
                mapSet st.leads normalizedPhone { sess with verified := true }
            | none => st.leads
          (⟨leads', st.db⟩, ⟨200, true, none⟩, effs)
        else
          (st, ⟨400, false, some "Invalid OTP"⟩, effs)

/-- The spreadsheet document `GET /api/export-leads` builds: worksheet
name, the rows as selected, the column keys `json_to_sheet` derives, and
the `!cols` display widths. -/
structure ExportDoc where
  sheetName : String
  rows : List LeadRow
  columns : List String
  colWidths : List Nat
deriving DecidableEq, Repr

/-- `GET /api/export-leads` (`src/server.js` lines 131–180).  `queryOk`
is the oracle for whether `db.all` succeeds.  Returns the error response
or the document built from the rows. -/
def exportAll (db : LeadsDb) (queryOk : Bool) : Except HttpResponse ExportDoc :=
  if !queryOk then
    .error ⟨500, false, some "Error fetching leads"⟩
  else if db.rows.isEmpty then
    .error ⟨400, false, some "No leads to export"⟩
  else
    .ok ⟨"Leads", db.rows,
         ["id", "name", "phone", "catalog_code", "created_at"],
         [5, 20, 15, 20, 20]⟩

/-- Scenario: state after submitting `{name:"Alice", phone:"5551"}` to an
empty server. -/
def scenarioAfterSubmit : ServerState :=
  (submitLead ⟨[], ⟨[], 1⟩⟩ (some "Alice") (some "5551") none true true 0).1

/-- Scenario: state after then verifying with a code the provider
approves — the session for `+5551` is VERIFIED. -/
def scenarioAfterVerify : ServerState :=
  (verifyLead scenarioAfterSubmit (some "5551") (some "1234")
    (.status "approved")).1

/-- Scenario: state after a second `submitLead` for the same phone. -/
def scenarioAfterResubmit : ServerState :=
  (submitLead scenarioAfterVerify (some "Alice") (some "5551") none true true 1).1

end QrOtp

namespace QrOtp

/-- A just-written key reads back: `mapLookup` after `mapSet` at the same
key yields the new session. -/
theorem mapLookup_mapSet_self (m : SessionMap) (k : String) (v : Session) :
    mapLookup (mapSet m k v) k = some v := by
  induction m with
  | nil => simp [mapSet, mapLookup]
  | cons hd tl ih =>
      obtain ⟨k', v'⟩ := hd
      by_cases h : k' = k <;> simp [mapSet, mapLookup, h, ih]

/-- `mapSet` leaves every other key's binding unchanged. -/
theorem mapLookup_mapSet_ne (m : SessionMap) (k k' : String) (v : Session)
    (h : k ≠ k') : mapLookup (mapSet m k v) k' = mapLookup m k' := by
  induction m with
  | nil => simp [mapSet, mapLookup, h]
  | cons hd tl ih =>
      obtain ⟨k0, v0⟩ := hd
      by_cases h0 : k0 = k
      · subst h0
        simp [mapSet, mapLookup, h]
      · simp [mapSet, mapLookup, h0, ih]

/-- A non-empty string field is truthy. -/
theorem isFalsy_eq_false {s : String} (h : s ≠ "") :
    isFalsy (some s) = false := by
  simp [isFalsy, h]

/-- C3: Normalization yields `+` followed by exactly the digit characters
of the input in order; the `verify-otp` handler normalizes identically to
the `send-otp` handler; and inputs with the same digit sequence normalize
to the same value. -/
theorem normalize_plus_digits (p q : String) :
    (sendOtpNormalize p).data = '+' :: p.data.filter Char.isDigit ∧
    verifyOtpNormalize p = sendOtpNormalize p ∧
    (p.data.filter Char.isDigit = q.data.filter Char.isDigit →
      sendOtpNormalize p = sendOtpNormalize q) := by
  refine ⟨?_, rfl, ?_⟩
  · simp [sendOtpNormalize]
  · intro h
    simp [sendOtpNormalize, h]

/-- C3 witness: two differently punctuated phones with the same digits
normalize to the same string. -/
theorem normalize_plus_digits_witness :
    "(555) 123-4567".data.filter Char.isDigit =
      "555-123-4567".data.filter Char.isDigit ∧
    sendOtpNormalize "(555) 123-4567" = sendOtpNormalize "555-123-4567" :=
  ⟨by decide, (normalize_plus_digits "(555) 123-4567" "555-123-4567").2.2
      (by decide)⟩

/-- C5: When `name` or `phone` is missing or empty, `submitLead` returns
the 400 validation failure, the state (session map and leads table) is
unchanged, and no external call (store insert, provider sendCode) is
issued. -/
theorem submitLead_validation (st : ServerState)
    (name phone catalogCode : Option String) (insertOk sendOk : Bool)
    (now : Nat) (h : isFalsy name = true ∨ isFalsy phone = true) :
    submitLead st name phone catalogCode insertOk sendOk now =
      (st, ⟨400, false, some "Name and phone are required"⟩, []) := by
  rcases h with h | h <;> simp [submitLead, h]

/-- C5 witness: a request with no name is rejected with state untouched. -/
theorem submitLead_validation_witness :
    (isFalsy (none : Option String) = true ∨ isFalsy (some "5551") = true) ∧
    submitLead ⟨[], ⟨[], 1⟩⟩ none (some "5551") none true true 0 =
      (⟨[], ⟨[], 1⟩⟩, ⟨400, false, some "Name and phone are required"⟩, []) :=
  ⟨Or.inl rfl,
   submitLead_validation ⟨[], ⟨[], 1⟩⟩ none (some "5551") none true true 0
     (Or.inl rfl)⟩

/-- C4: Export of an empty store fails with the 400 no-data response and
no document; export of a non-empty store yields a document whose rows are
exactly the stored rows, with worksheet name `Leads` and columns id,
name, phone, catalog_code, created_at. -/
theorem exportAll_spec (db : LeadsDb) :
    (db.rows = [] →
      exportAll db true = .error ⟨400, false, some "No leads to export"⟩) ∧
    (db.rows ≠ [] →
      ∃ doc, exportAll db true = .ok doc ∧ doc.rows = db.rows ∧
        doc.sheetName = "Leads" ∧
        doc.columns = ["id", "name", "phone", "catalog_code", "created_at"]) := by
  constructor
  · intro h
    simp [exportAll, h]
  · intro h
    exact ⟨⟨"Leads", db.rows,
      ["id", "name", "phone", "catalog_code", "created_at"],
      [5, 20, 15, 20, 20]⟩, by simp [exportAll, h], rfl, rfl, rfl⟩

/-- C4 witness: the empty store is rejected; a one-row store exports that
row. -/
theorem exportAll_spec_witness :
    ((⟨[], 1⟩ : LeadsDb).rows = [] →
      exportAll ⟨[], 1⟩ true = .error ⟨400, false, some "No leads to export"⟩) ∧
    ∃ doc, exportAll ⟨[⟨1, "Alice", "+15551112222", none, 0⟩], 2⟩ true = .ok doc ∧
      doc.rows = [⟨1, "Alice", "+15551112222", none, 0⟩] ∧
      doc.sheetName = "Leads" ∧
      doc.columns = ["id", "name", "phone", "catalog_code", "created_at"] :=
  ⟨(exportAll_spec ⟨[], 1⟩).1,
   (exportAll_spec ⟨[⟨1, "Alice", "+15551112222", none, 0⟩], 2⟩).2 (by decide)⟩

end QrOtp

namespace QrOtp

/-- C1: For a phone whose session is PENDING (present with
`verified=false`), `verifyLead` with a code the provider approves returns
success and sets the session's verified flag to true; with any
non-approved status it returns the 400 Invalid OTP response and leaves
the session's verified flag false. -/
theorem verifyLead_pending (st : ServerState) (phone otp s : String)
    (sess : Session) (hp : phone ≠ "") (ho : otp ≠ "")
    (hsess : mapLookup st.leads (verifyOtpNormalize phone) = some sess)
    (hpend : sess.verified = false) :
    ((verifyLead st (some phone) (some otp) (.status "approved")).2.1 =
        ⟨200, true, none⟩ ∧
      mapLookup
        (verifyLead st (some phone) (some otp) (.status "approved")).1.leads
        (verifyOtpNormalize phone) = some { sess with verified := true }) ∧
    (s ≠ "approved" →
      (verifyLead st (some phone) (some otp) (.status s)).2.1 =
        ⟨400, false, some "Invalid OTP"⟩ ∧
      mapLookup (verifyLead st (some phone) (some otp) (.status s)).1.leads
        (verifyOtpNormalize phone) = some sess ∧
      sess.verified = false) := by
  have hp' := isFalsy_eq_false hp
  have ho' := isFalsy_eq_false ho
  refine ⟨⟨?_, ?_⟩, ?_⟩
  · simp [verifyLead, hp', ho']
  · simp [verifyLead, hp', ho', hsess, mapLookup_mapSet_self]
  · intro hs
    exact ⟨by simp [verifyLead, hp', ho', hs],
      by simp [verifyLead, hp', ho', hs, hsess], hpend⟩

/-- C1 witness: with a PENDING session for `+5551`, an approved check
returns success. -/
theorem verifyLead_pending_witness :
    ("5551" : String) ≠ "" ∧ ("1234" : String) ≠ "" ∧
    mapLookup [("+5551", ⟨"Alice", "+5551", false⟩)]
      (verifyOtpNormalize "5551") = some ⟨"Alice", "+5551", false⟩ ∧
    (verifyLead ⟨[("+5551", ⟨"Alice", "+5551", false⟩)], ⟨[], 1⟩⟩
        (some "5551") (some "1234") (.status "approved")).2.1 =
      ⟨200, true, none⟩ :=
  ⟨by decide, by decide, by decide,
   (verifyLead_pending ⟨[("+5551", ⟨"Alice", "+5551", false⟩)], ⟨[], 1⟩⟩
      "5551" "1234" "pending" ⟨"Alice", "+5551", false⟩
      (by decide) (by decide) (by decide) rfl).1.1⟩

/-- C2 counterexample: after a submission and an approved verification
the `+5551` session is VERIFIED, yet one more `submitLead` for the same
phone overwrites it with `verified=false` — a VERIFIED session returned
to the PENDING state by a submitLead/verifyLead sequence. -/
theorem session_regression_counterexample :
    mapLookup scenarioAfterVerify.leads "+5551" =
      some ⟨"Alice", "+5551", true⟩ ∧
    mapLookup scenarioAfterResubmit.leads "+5551" =
      some ⟨"Alice", "+5551", false⟩ :=
  ⟨rfl, rfl⟩

/-- C2 amended: `verifyLead` alone never moves a session backward — a
session that has reached VERIFIED keeps `verified=true` across every
further `verifyLead` call; `submitLead`, by contrast, overwrites the
session with `verified=false`. -/
theorem verifyLead_monotone (st : ServerState) (phone otp : Option String)
    (check : CheckOutcome) (k : String) (sess : Session)
    (hk : mapLookup st.leads k = some sess) (hv : sess.verified = true) :
    ∃ sess', mapLookup (verifyLead st phone otp check).1.leads k = some sess' ∧
      sess'.verified = true := by
  cases hf : (isFalsy phone || isFalsy otp) with
  | true => exact ⟨sess, by simp [verifyLead, hf, hk], hv⟩
  | false =>
      rcases check with _ | s
      · exact ⟨sess, by simp [verifyLead, hf, hk], hv⟩
      · by_cases hs : s = "approved"
        · subst hs
          cases hml : mapLookup st.leads (verifyOtpNormalize (phone.getD "")) with
          | none => exact ⟨sess, by simp [verifyLead, hf, hml, hk], hv⟩
          | some s0 =>
              by_cases hkeq : verifyOtpNormalize (phone.getD "") = k
              · subst hkeq
                rw [hk] at hml
                injection hml with hml
                subst hml
                exact ⟨{ sess with verified := true },
                  by simp [verifyLead, hf, hk, mapLookup_mapSet_self], rfl⟩
              · exact ⟨sess,
                  by simp [verifyLead, hf, hml,
                    mapLookup_mapSet_ne _ _ _ _ hkeq, hk], hv⟩
        · exact ⟨sess, by simp [verifyLead, hf, hs, hk], hv⟩

/-- C2 amended witness: the VERIFIED `+5551` session survives a further
denied verification attempt. -/
theorem verifyLead_monotone_witness :
    mapLookup scenarioAfterVerify.leads "+5551" =
      some ⟨"Alice", "+5551", true⟩ ∧
    ∃ sess', mapLookup (verifyLead scenarioAfterVerify (some "5551")
        (some "9999") (.status "pending")).1.leads "+5551" = some sess' ∧
      sess'.verified = true :=
  ⟨rfl, verifyLead_monotone scenarioAfterVerify (some "5551") (some "9999")
    (.status "pending") "+5551" ⟨"Alice", "+5551", true⟩ rfl rfl⟩

/-- C9: Verifying a phone that has no session is permitted: the provider
check is still issued, and on an approved result the handler returns
success while the whole state — session map included — is unchanged (no
session is created, nothing marked verified). -/
theorem verifyLead_no_session (st : ServerState) (phone otp : String)
    (hp : phone ≠ "") (ho : otp ≠ "")
    (hnone : mapLookup st.leads (verifyOtpNormalize phone) = none) :
    verifyLead st (some phone) (some otp) (.status "approved") =
      (st, ⟨200, true, none⟩,
       [.checkCode (verifyOtpNormalize phone) otp]) := by
  have hp' := isFalsy_eq_false hp
  have ho' := isFalsy_eq_false ho
  simp [verifyLead, hp', ho', hnone]

/-- C9 witness: verifying against an empty session map with an approved
code succeeds and leaves the empty state untouched. -/
theorem verifyLead_no_session_witness :
    mapLookup ([] : SessionMap) (verifyOtpNormalize "5551") = none ∧
    verifyLead ⟨[], ⟨[], 1⟩⟩ (some "5551") (some "1234")
        (.status "approved") =
      (⟨[], ⟨[], 1⟩⟩, ⟨200, true, none⟩,
       [.checkCode (verifyOtpNormalize "5551") "1234"]) :=
  ⟨rfl, verifyLead_no_session ⟨[], ⟨[], 1⟩⟩ "5551" "1234"
    (by decide) (by decide) rfl⟩

end QrOtp

namespace QrOtp

/-- A truthy string field is non-empty once defaulted. -/
theorem getD_ne_empty_of_not_falsy {x : Option String}
    (h : isFalsy x = false) : x.getD "" ≠ "" := by
  cases x with
  | none => simp [isFalsy] at h
  | some s => simpa [isFalsy] using h

/-- C6: A lead-store insert failure is non-fatal: for a valid submission
the provider `sendCode` call is issued whether the insert succeeded or
failed, and when `sendCode` succeeds the handler returns success in both
cases. -/
theorem submitLead_insert_nonfatal (st : ServerState)
    (name phone catalogCode : Option String) (sendOk : Bool) (now : Nat)
    (hn : isFalsy name = false) (hp : isFalsy phone = false) :
    (Effect.sendCode (sendOtpNormalize (phone.getD "")) ∈
        (submitLead st name phone catalogCode true sendOk now).2.2 ∧
      Effect.sendCode (sendOtpNormalize (phone.getD "")) ∈
        (submitLead st name phone catalogCode false sendOk now).2.2) ∧
    (sendOk = true →
      (submitLead st name phone catalogCode true sendOk now).2.1 =
        ⟨200, true, none⟩ ∧
      (submitLead st name phone catalogCode false sendOk now).2.1 =
        ⟨200, true, none⟩) := by
  cases sendOk <;> simp [submitLead, hn, hp]

/-- C6 witness: with the insert failing, a valid submission still sends
the code and succeeds. -/
theorem submitLead_insert_nonfatal_witness :
    isFalsy (some "Alice") = false ∧
    (submitLead ⟨[], ⟨[], 1⟩⟩ (some "Alice") (some "5551") none false true
        0).2.1 = ⟨200, true, none⟩ :=
  ⟨rfl, ((submitLead_insert_nonfatal ⟨[], ⟨[], 1⟩⟩ (some "Alice")
    (some "5551") none true 0 rfl rfl).2 rfl).2⟩

/-- C7: When the provider `sendCode` call fails, `submitLead` returns the
500 failure response and the session written earlier in the same call —
`{name, normalized phone, verified:false}` — is still present,
unaltered. -/
theorem submitLead_sendFail (st : ServerState)
    (name phone catalogCode : Option String) (insertOk : Bool) (now : Nat)
    (hn : isFalsy name = false) (hp : isFalsy phone = false) :
    (submitLead st name phone catalogCode insertOk false now).2.1 =
      ⟨500, false, some "Failed to send OTP"⟩ ∧
    mapLookup (submitLead st name phone catalogCode insertOk false now).1.leads
      (sendOtpNormalize (phone.getD "")) =
      some ⟨name.getD "", sendOtpNormalize (phone.getD ""), false⟩ := by
  constructor
  · simp [submitLead, hn, hp]
  · simp [submitLead, hn, hp, mapLookup_mapSet_self]

/-- C7 witness: a failed send on a fresh submission leaves the PENDING
session for `+5551` in place. -/
theorem submitLead_sendFail_witness :
    isFalsy (some "Alice") = false ∧
    mapLookup (submitLead ⟨[], ⟨[], 1⟩⟩ (some "Alice") (some "5551") none
        true false 0).1.leads (sendOtpNormalize "5551") =
      some ⟨"Alice", sendOtpNormalize "5551", false⟩ :=
  ⟨rfl, (submitLead_sendFail ⟨[], ⟨[], 1⟩⟩ (some "Alice") (some "5551") none
    true 0 rfl rfl).2⟩

/-- C8: Every row a valid submission inserts has the store-assigned next
id, the submitted (non-empty) name, the normalized phone, and is appended
after the existing rows; a failed insert leaves the rows unchanged; and
`verifyLead` never touches the table — so rows are never updated or
deleted, and nothing prevents two submissions with the same phone from
producing two rows. -/
theorem leadStore_invariants (st : ServerState)
    (name phone catalogCode : Option String) (sendOk : Bool) (now : Nat)
    (hn : isFalsy name = false) (hp : isFalsy phone = false) :
    (submitLead st name phone catalogCode true sendOk now).1.db.rows =
      st.db.rows ++
        [⟨st.db.nextId, name.getD "", sendOtpNormalize (phone.getD ""),
          catalogCode, now⟩] ∧
    name.getD "" ≠ "" ∧
    (submitLead st name phone catalogCode false sendOk now).1.db.rows =
      st.db.rows ∧
    (∀ p o chk, (verifyLead st p o chk).1.db = st.db) := by
  refine ⟨?_, getD_ne_empty_of_not_falsy hn, ?_, ?_⟩
  · cases sendOk <;> simp [submitLead, hn, hp, dbInsert]
  · cases sendOk <;> simp [submitLead, hn, hp]
  · intro p o chk
    cases hf : (isFalsy p || isFalsy o) with
    | true => simp [verifyLead, hf]
    | false =>
        rcases chk with _ | v
        · simp [verifyLead, hf]
        · by_cases hv : v = "approved"
          · subst hv
            cases hml : mapLookup st.leads (verifyOtpNormalize (p.getD "")) <;>
              simp [verifyLead, hf, hml]
          · simp [verifyLead, hf, hv]

/-- C8 witness: a concrete submission appends exactly one row with the
normalized phone. -/
theorem leadStore_invariants_witness :
    isFalsy (some "Alice") = false ∧ isFalsy (some "555-123") = false ∧
    (submitLead ⟨[], ⟨[], 1⟩⟩ (some "Alice") (some "555-123") (some "CAT1")
        true true 0).1.db.rows =
      ([] : List LeadRow) ++
        [⟨1, "Alice", sendOtpNormalize "555-123", some "CAT1", 0⟩] :=
  ⟨rfl, rfl,
   (leadStore_invariants ⟨[], ⟨[], 1⟩⟩ (some "Alice") (some "555-123")
      (some "CAT1") true 0 rfl rfl).1⟩

/-- C10: A non-empty phone with no digit characters passes validation and
normalizes to the bare string `+`, which becomes the session key, the
phone column of the inserted row, and the number handed to the provider's
`sendCode` call. -/
theorem submitLead_no_digits (st : ServerState) (name phone : String)
    (catalogCode : Option String) (sendOk : Bool) (now : Nat)
    (hn : name ≠ "") (hp : phone ≠ "")
    (hd : ∀ c ∈ phone.data, c.isDigit = false) :
    sendOtpNormalize phone = "+" ∧
    mapLookup (submitLead st (some name) (some phone) catalogCode true sendOk
        now).1.leads "+" = some ⟨name, "+", false⟩ ∧
    (submitLead st (some name) (some phone) catalogCode true sendOk
        now).1.db.rows =
      st.db.rows ++ [⟨st.db.nextId, name, "+", catalogCode, now⟩] ∧
    Effect.sendCode "+" ∈
      (submitLead st (some name) (some phone) catalogCode true sendOk
        now).2.2 := by
  have hn' := isFalsy_eq_false hn
  have hp' := isFalsy_eq_false hp
  have hfil : phone.data.filter Char.isDigit = [] :=
    List.filter_eq_nil_iff.mpr (fun c hc => by simp [hd c hc])
  have hnorm : sendOtpNormalize phone = "+" := by
    show "+" ++ String.mk (phone.data.filter Char.isDigit) = "+"
    rw [hfil]
    decide
  refine ⟨hnorm, ?_, ?_, ?_⟩
  · cases sendOk <;>
      simp [submitLead, hn', hp', hnorm, mapLookup_mapSet_self]
  · cases sendOk <;> simp [submitLead, hn', hp', hnorm, dbInsert]
  · cases sendOk <;> simp [submitLead, hn', hp', hnorm]

/-- C10 witness: the all-letters phone `abc-def` is accepted, keyed and
stored as the bare `+`. -/
theorem submitLead_no_digits_witness :
    (∀ c ∈ ("abc-def" : String).data, c.isDigit = false) ∧
    sendOtpNormalize "abc-def" = "+" ∧
    mapLookup (submitLead ⟨[], ⟨[], 1⟩⟩ (some "Bob") (some "abc-def") none
        true true 0).1.leads "+" = some ⟨"Bob", "+", false⟩ :=
  ⟨by decide,
   (submitLead_no_digits ⟨[], ⟨[], 1⟩⟩ "Bob" "abc-def" none true 0
      (by decide) (by decide) (by decide)).1,
   (submitLead_no_digits ⟨[], ⟨[], 1⟩⟩ "Bob" "abc-def" none true 0
      (by decide) (by decide) (by decide)).2.1⟩

end QrOtp
